import Mathlib

/-!
Verification of the resizable split-pane controller and the code-editor
change handler of the geostyler-demo application (src/App.tsx).

The interactive core is the `useEffect` block that wires a divider element
(`resizerRef`) with three handlers:

  * `onMouseDown`  — captures `startX := e.clientX` and
    `startWidth := previousElementSibling.getBoundingClientRect().width`,
    then installs `onMouseMove` and `onMouseUp` on the document;
  * `onMouseMove`  — computes `newWidth := startWidth + (e.clientX - startX)`,
    writes it as the left panel's explicit pixel width and writes
    `window.innerWidth - newWidth - 10` as the right panel's flex basis;
  * `onMouseUp`    — removes the two document-level listeners;
  * the effect body installs `onMouseDown` on the divider and its cleanup
    removes it again.

We embed this as a state-transition system.  The DOM's
`addEventListener` discards a registration of an already-registered
(type, callback) pair, so document listeners are modelled as a list of
handler tags with a membership-checking add; `removeEventListener`
removes the registered occurrence.  Pixel coordinates and widths are
modelled as integers (the arithmetic in the source is exact, no rounding
occurs).
-/

/-- Tags for the two temporary document-level handlers installed during a
drag session. -/
inductive DocHandler where
  | move
  | up
deriving DecidableEq, Repr

/-- DOM `addEventListener` semantics: registering an already-registered
handler is discarded, otherwise the handler is appended. -/
def addListener (l : List DocHandler) (h : DocHandler) : List DocHandler :=
  if h ∈ l then l else l ++ [h]

/-- DOM `removeEventListener` semantics: the registered occurrence of the
handler is removed. -/
def removeListener (l : List DocHandler) (h : DocHandler) : List DocHandler :=
  l.filter (fun a => a ≠ h)

/-- The observable state of the split-pane controller: the viewport width
(`window.innerWidth`), the left panel's rendered width, the right panel's
inline flex basis (`none` before any inline style is written), the drag
session's captured values (`startX`, `startWidth` — the effect initialises
both to 0), the document-level listener list, and whether the divider's
`mousedown` listener is installed. -/
structure ResizerState where
  innerWidth : Int
  leftWidth : Int
  rightFlex : Option Int
  startX : Int
  startWidth : Int
  docListeners : List DocHandler
  downListener : Bool
deriving DecidableEq, Repr

/-- `onMouseDown` from the source: capture the pointer X as `startX`, read
the left panel's current rendered width into `startWidth`, and install the
document-level `mousemove` and `mouseup` listeners. -/
def onMouseDown (s : ResizerState) (clientX : Int) : ResizerState :=
  { s with
      startX := clientX
      startWidth := s.leftWidth
      docListeners := addListener (addListener s.docListeners .move) .up }

/-- `onMouseMove` from the source: `newWidth = startWidth + (clientX - startX)`
becomes the left panel's explicit width, and
`innerWidth - newWidth - 10` becomes the right panel's flex basis. -/
def onMouseMove (s : ResizerState) (clientX : Int) : ResizerState :=
  let newWidth := s.startWidth + (clientX - s.startX)
  { s with
      leftWidth := newWidth
      rightFlex := some (s.innerWidth - newWidth - 10) }

/-- `onMouseUp` from the source: remove the document-level `mousemove` and
`mouseup` listeners. -/
def onMouseUp (s : ResizerState) : ResizerState :=
  { s with
      docListeners := removeListener (removeListener s.docListeners .move) .up }

/-- Pointer events delivered to the page: `mouseDown` is a mousedown on the
divider, `mouseMove` and `mouseUp` are document-level events. -/
inductive PointerEvent where
  | mouseDown (clientX : Int)
  | mouseMove (clientX : Int)
  | mouseUp
deriving DecidableEq, Repr

/-- Event dispatch: a handler runs exactly when its listener is currently
registered. -/
def step (s : ResizerState) : PointerEvent → ResizerState
  | .mouseDown x => if s.downListener then onMouseDown s x else s
  | .mouseMove x => if DocHandler.move ∈ s.docListeners then onMouseMove s x else s
  | .mouseUp => if DocHandler.up ∈ s.docListeners then onMouseUp s else s

/-- Deliver a sequence of pointer events. -/
def run (s : ResizerState) (es : List PointerEvent) : ResizerState :=
  es.foldl step s

/-- The `useEffect` cleanup from the source: it removes only the divider's
`mousedown` listener (`resizer.removeEventListener("mousedown", onMouseDown)`). -/
def detach (s : ResizerState) : ResizerState :=
  { s with downListener := false }

/-- The `useEffect` body from the source.  It initialises `startX` and
`startWidth` to 0 and runs `resizer!.addEventListener("mousedown", onMouseDown)`.
The non-null assertion `resizer!` is erased at runtime, so when
`resizerRef.current` is null the member access on `null` throws a
`TypeError`; there is no guard in the code. -/
def attach (dividerPresent : Bool) (s : ResizerState) : Except String ResizerState :=
  if dividerPresent then
    Except.ok { s with startX := 0, startWidth := 0, downListener := true }
  else
    Except.error "TypeError"

/-- A concrete freshly-attached state used in scenarios: viewport 1200 px,
left panel rendered at 300 px, no inline flex basis yet, no active session. -/
def initState : ResizerState :=
  { innerWidth := 1200
    leftWidth := 300
    rightFlex := none
    startX := 0
    startWidth := 0
    docListeners := []
    downListener := true }

/-- A line symbolizer as used in the app's initial style document. -/
structure LineSymbolizer where
  kind : String
  color : String
  width : Int
deriving DecidableEq, Repr

/-- A style rule: a name and a list of symbolizers. -/
structure StyleRule where
  name : String
  symbolizers : List LineSymbolizer
deriving DecidableEq, Repr

/-- The style document held in the app's `style` state. -/
structure GsStyle where
  name : String
  rules : List StyleRule
deriving DecidableEq, Repr

/-- The initial style document the app's state is created with. -/
def initialStyle : GsStyle :=
  { name := "GeoStyler Demo"
    rules := [{ name := "Rule 1"
                symbolizers := [{ kind := "Line", color := "#ff0000", width := 5 }] }] }

/-- `onCodeEditorChange` from the source: a falsy emitted style
(`if (!newStyle) return;`, modelled as `none`) leaves the style state
unchanged, otherwise `setStyle(newStyle)` replaces it. -/
def onCodeEditorChange (styleState : GsStyle) (newStyle : Option GsStyle) : GsStyle :=
  match newStyle with
  | none => styleState
  | some st => st

/-! ### Helper lemmas about listener registration -/

/-- Registering a handler makes it registered. -/
lemma mem_addListener_self (l : List DocHandler) (h : DocHandler) :
    h ∈ addListener l h := by
  unfold addListener
  split
  · assumption
  · simp

/-- Registration preserves already-registered handlers. -/
lemma mem_addListener_of_mem (l : List DocHandler) (a h : DocHandler) (ha : a ∈ l) :
    a ∈ addListener l h := by
  unfold addListener
  split
  · exact ha
  · exact List.mem_append_left _ ha

/-- Registering an already-registered handler is discarded. -/
lemma addListener_of_mem (l : List DocHandler) (h : DocHandler) (hh : h ∈ l) :
    addListener l h = l := if_pos hh

/-- A removed handler is no longer registered. -/
lemma not_mem_removeListener_self (l : List DocHandler) (h : DocHandler) :
    h ∉ removeListener l h := by
  unfold removeListener
  intro hmem
  have := List.of_mem_filter hmem
  simp at this

/-- Removal introduces no new registrations. -/
lemma mem_of_mem_removeListener (l : List DocHandler) (a h : DocHandler)
    (ha : a ∈ removeListener l h) : a ∈ l :=
  List.mem_of_mem_filter ha

/-- After `onMouseUp`, the `mousemove` handler is not registered. -/
lemma move_not_mem_after_onMouseUp (s : ResizerState) :
    DocHandler.move ∉ (onMouseUp s).docListeners := by
  intro hmem
  unfold onMouseUp at hmem
  simp only at hmem
  exact not_mem_removeListener_self _ .move (mem_of_mem_removeListener _ _ _ hmem)

/-- After `onMouseUp`, the `mouseup` handler is not registered. -/
lemma up_not_mem_after_onMouseUp (s : ResizerState) :
    DocHandler.up ∉ (onMouseUp s).docListeners := by
  intro hmem
  unfold onMouseUp at hmem
  simp only at hmem
  exact not_mem_removeListener_self _ .up hmem

/-! ### Helper lemmas about the handlers -/

/-- The width written by a move depends only on the captured session values
and the current pointer position, so two consecutive moves compose to the
last one alone: there is no accumulation. -/
lemma onMouseMove_onMouseMove (s : ResizerState) (x y : Int) :
    onMouseMove (onMouseMove s x) y = onMouseMove s y := by
  simp [onMouseMove]

lemma docListeners_onMouseMove (s : ResizerState) (x : Int) :
    (onMouseMove s x).docListeners = s.docListeners := rfl

lemma leftWidth_onMouseMove (s : ResizerState) (x : Int) :
    (onMouseMove s x).leftWidth = s.startWidth + (x - s.startX) := rfl

lemma leftWidth_onMouseUp (s : ResizerState) :
    (onMouseUp s).leftWidth = s.leftWidth := rfl

lemma move_mem_onMouseDown (s : ResizerState) (x : Int) :
    DocHandler.move ∈ (onMouseDown s x).docListeners :=
  mem_addListener_of_mem _ _ _ (mem_addListener_self _ _)

lemma up_mem_onMouseDown (s : ResizerState) (x : Int) :
    DocHandler.up ∈ (onMouseDown s x).docListeners :=
  mem_addListener_self _ _

/-- Delivering a non-empty sequence of `mousemove` events to a state whose
`mousemove` handler is registered is the same as delivering only the last
one. -/
lemma run_moves_eq_last (xs : List Int) :
    ∀ s : ResizerState, DocHandler.move ∈ s.docListeners → ∀ hne : xs ≠ [],
      run s (xs.map PointerEvent.mouseMove) = onMouseMove s (xs.getLast hne) := by
  induction xs with
  | nil =>
    intro s hm hne
    exact absurd rfl hne
  | cons x rest ih =>
    intro s hm hne
    cases rest with
    | nil =>
      simp [run, step, hm]
    | cons y t =>
      have hm2 : DocHandler.move ∈ (onMouseMove s x).docListeners := hm
      have hstep : step s (PointerEvent.mouseMove x) = onMouseMove s x := by
        simp [step, hm]
      have hsplit : run s ((x :: y :: t).map PointerEvent.mouseMove)
          = run (onMouseMove s x) ((y :: t).map PointerEvent.mouseMove) := by
        simp only [List.map, run, List.foldl]
        rw [hstep]
      rw [hsplit, ih (onMouseMove s x) hm2 (by simp), onMouseMove_onMouseMove]
      congr 1

/-- Claim C1: for every drag sequence of one mousedown (at `x0`, with the
left panel rendered at `s.leftWidth`) followed by a non-empty list of
mousemoves followed by one mouseup, the final left-panel width is
`startWidth + (lastMoveX - startX)`, independent of the number and the
positions of the intermediate moves. -/
theorem drag_final_width (s : ResizerState) (x0 : Int) (xs : List Int)
    (hdown : s.downListener = true) (hne : xs ≠ []) :
    (run s (PointerEvent.mouseDown x0 ::
        (xs.map PointerEvent.mouseMove ++ [PointerEvent.mouseUp]))).leftWidth
      = s.leftWidth + (xs.getLast hne - x0) := by
  have hdstep : step s (PointerEvent.mouseDown x0) = onMouseDown s x0 := by
    simp [step, hdown]
  have h1 : run s (PointerEvent.mouseDown x0 ::
      (xs.map PointerEvent.mouseMove ++ [PointerEvent.mouseUp]))
      = run (onMouseDown s x0) (xs.map PointerEvent.mouseMove ++ [PointerEvent.mouseUp]) := by
    simp only [run, List.foldl]
    rw [hdstep]
  have h2 : run (onMouseDown s x0) (xs.map PointerEvent.mouseMove ++ [PointerEvent.mouseUp])
      = step (run (onMouseDown s x0) (xs.map PointerEvent.mouseMove)) PointerEvent.mouseUp := by
    simp only [run, List.foldl_append, List.foldl]
  have h3 : run (onMouseDown s x0) (xs.map PointerEvent.mouseMove)
      = onMouseMove (onMouseDown s x0) (xs.getLast hne) :=
    run_moves_eq_last xs (onMouseDown s x0) (move_mem_onMouseDown s x0) hne
  have hup : DocHandler.up ∈ (onMouseMove (onMouseDown s x0) (xs.getLast hne)).docListeners := by
    rw [docListeners_onMouseMove]
    exact up_mem_onMouseDown s x0
  rw [h1, h2, h3]
  simp only [step, if_pos hup, leftWidth_onMouseUp, leftWidth_onMouseMove]
  rfl

/-- Witness for C1: a concrete drag from the spec scenario — down at 300,
moves to 350 and 280, up — ends with the left panel at 300 + (280 - 300). -/
theorem drag_final_width_witness :
    initState.downListener = true ∧
    (run initState (PointerEvent.mouseDown 300 ::
        (([350, 280] : List Int).map PointerEvent.mouseMove ++ [PointerEvent.mouseUp]))).leftWidth
      = initState.leftWidth + (([350, 280] : List Int).getLast (by decide) - 300) :=
  ⟨by decide, drag_final_width initState 300 [350, 280] (by decide) (by decide)⟩

/-- Counterexample for C2: with the divider absent, the attachment effect is
not a no-op on the state — it throws (`resizer!.addEventListener` dereferences
null without a guard). -/
theorem attach_absent_divider_not_noop :
    attach false initState = Except.error "TypeError" ∧
    ¬ attach false initState = Except.ok initState := by
  refine ⟨rfl, fun h => ?_⟩
  rw [show attach false initState = Except.error "TypeError" from rfl] at h
  exact Except.noConfusion h

/-- Claim C2 (amended): if the divider element is absent at attachment time
the attachment throws a TypeError (the null divider is dereferenced without
a guard) rather than silently doing nothing; with the divider present it
resets the session values and installs the mousedown listener, and this
throw is the controller's only failure path. -/
theorem attach_throws_when_divider_absent (s : ResizerState) :
    attach false s = Except.error "TypeError" ∧
    attach true s = Except.ok { s with startX := 0, startWidth := 0, downListener := true } :=
  ⟨rfl, rfl⟩

/-- Claim C3: every mousemove during an active session writes
`newWidth = startWidth + (x - startX)` to the left panel and
`innerWidth - newWidth - 10` as the right panel's flex basis; in the spec
scenario (viewport 1200, drag ending at left width 280) the right panel's
flex basis is 910. -/
theorem move_updates_widths (s : ResizerState) (x : Int)
    (hm : DocHandler.move ∈ s.docListeners) :
    ((step s (PointerEvent.mouseMove x)).leftWidth = s.startWidth + (x - s.startX) ∧
     (step s (PointerEvent.mouseMove x)).rightFlex
       = some (s.innerWidth - (s.startWidth + (x - s.startX)) - 10)) ∧
    ((run initState [PointerEvent.mouseDown 300, PointerEvent.mouseMove 350,
        PointerEvent.mouseMove 280, PointerEvent.mouseUp]).leftWidth = 280 ∧
     (run initState [PointerEvent.mouseDown 300, PointerEvent.mouseMove 350,
        PointerEvent.mouseMove 280, PointerEvent.mouseUp]).rightFlex = some 910) := by
  refine ⟨⟨?_, ?_⟩, by decide, by decide⟩ <;> simp [step, hm, onMouseMove]

/-- Witness for C3: the state right after a mousedown has the mousemove
listener registered, and a move to 350 writes 300 + (350 - 300). -/
theorem move_updates_widths_witness :
    DocHandler.move ∈ (onMouseDown initState 300).docListeners ∧
    (step (onMouseDown initState 300) (PointerEvent.mouseMove 350)).leftWidth
      = (onMouseDown initState 300).startWidth + (350 - (onMouseDown initState 300).startX) :=
  ⟨by decide, ((move_updates_widths (onMouseDown initState 300) 350 (by decide)).1).1⟩

/-- Claim C4: a mouseup is followed by mousemoves having no effect (the
hypothesis is the listener-pairing invariant maintained by the code: the
move listener is only ever registered together with the up listener); and
in the Idle state — no registered move listener — a mousemove changes
nothing. -/
theorem move_after_up_noop (s : ResizerState) (x : Int)
    (hinv : DocHandler.move ∈ s.docListeners → DocHandler.up ∈ s.docListeners) :
    step (step s PointerEvent.mouseUp) (PointerEvent.mouseMove x) = step s PointerEvent.mouseUp ∧
    (DocHandler.move ∉ s.docListeners → step s (PointerEvent.mouseMove x) = s) := by
  constructor
  · by_cases hup : DocHandler.up ∈ s.docListeners
    · have h1 : step s PointerEvent.mouseUp = onMouseUp s := by
        simp [step, hup]
      rw [h1]
      simp [step, move_not_mem_after_onMouseUp]
    · have h1 : step s PointerEvent.mouseUp = s := by
        simp [step, hup]
      have hm : DocHandler.move ∉ s.docListeners := fun hm => hup (hinv hm)
      rw [h1]
      simp [step, hm]
  · intro hm
    simp [step, hm]

/-- Witness for C4: from the state right after a mousedown, a mouseup then a
mousemove leaves the state where the mouseup put it. -/
theorem move_after_up_noop_witness :
    (DocHandler.move ∈ (onMouseDown initState 300).docListeners →
      DocHandler.up ∈ (onMouseDown initState 300).docListeners) ∧
    step (step (onMouseDown initState 300) PointerEvent.mouseUp) (PointerEvent.mouseMove 400)
      = step (onMouseDown initState 300) PointerEvent.mouseUp :=
  ⟨by decide, (move_after_up_noop (onMouseDown initState 300) 400 (by decide)).1⟩

/-- Claim C5: a mouseup with no active session (no registered mouseup
listener) changes nothing, and a mouseup is idempotent: a second mouseup
right after a first one changes nothing. -/
theorem mouseUp_noop_idempotent (s : ResizerState) :
    (DocHandler.up ∉ s.docListeners → step s PointerEvent.mouseUp = s) ∧
    step (step s PointerEvent.mouseUp) PointerEvent.mouseUp = step s PointerEvent.mouseUp := by
  constructor
  · intro h
    simp [step, h]
  · by_cases hup : DocHandler.up ∈ s.docListeners
    · have h1 : step s PointerEvent.mouseUp = onMouseUp s := by
        simp [step, hup]
      rw [h1]
      simp [step, up_not_mem_after_onMouseUp]
    · have h1 : step s PointerEvent.mouseUp = s := by
        simp [step, hup]
      rw [h1, h1]

/-- Witness for C5: the freshly-attached state has no mouseup listener and a
mouseup leaves it unchanged. -/
theorem mouseUp_noop_idempotent_witness :
    DocHandler.up ∉ initState.docListeners ∧ step initState PointerEvent.mouseUp = initState :=
  ⟨by decide, (mouseUp_noop_idempotent initState).1 (by decide)⟩

/-- Claim C6: after the cleanup removed the divider's mousedown listener, a
mousedown on the divider changes nothing at all — no session values are
captured, no document listeners are installed, no widths change. -/
theorem mousedown_after_detach_noop (s : ResizerState) (x : Int) :
    step (detach s) (PointerEvent.mouseDown x) = detach s := by
  simp [step, detach]

/-- Claim C7: a mousedown (with the divider listener installed) captures
`startX` as the pointer position and `startWidth` as the left panel's
current rendered width, whatever state the width was brought into. -/
theorem mousedown_captures (s : ResizerState) (x : Int) (hdown : s.downListener = true) :
    (step s (PointerEvent.mouseDown x)).startX = x ∧
    (step s (PointerEvent.mouseDown x)).startWidth = s.leftWidth := by
  simp [step, hdown, onMouseDown]

/-- Witness for C7: at the freshly-attached state a mousedown at 300
captures startX = 300 and startWidth = the rendered 300 px. -/
theorem mousedown_captures_witness :
    initState.downListener = true ∧
    ((step initState (PointerEvent.mouseDown 300)).startX = 300 ∧
     (step initState (PointerEvent.mouseDown 300)).startWidth = initState.leftWidth) :=
  ⟨by decide, mousedown_captures initState 300 (by decide)⟩

/-- Claim C8: the cleanup removes only the divider's mousedown listener —
the document-level listeners survive a detach and are removed only by the
next mouseup. -/
theorem detach_keeps_doc_listeners (s : ResizerState) :
    (detach s).docListeners = s.docListeners ∧
    (DocHandler.up ∈ s.docListeners →
      DocHandler.move ∉ (step (detach s) PointerEvent.mouseUp).docListeners ∧
      DocHandler.up ∉ (step (detach s) PointerEvent.mouseUp).docListeners) := by
  refine ⟨rfl, fun hup => ?_⟩
  have h1 : step (detach s) PointerEvent.mouseUp = onMouseUp (detach s) := by
    simp [step, detach, hup]
  rw [h1]
  exact ⟨move_not_mem_after_onMouseUp _, up_not_mem_after_onMouseUp _⟩

/-- Witness for C8: detaching right after a mousedown keeps both document
listeners; the following mouseup removes them. -/
theorem detach_keeps_doc_listeners_witness :
    (detach (onMouseDown initState 300)).docListeners = (onMouseDown initState 300).docListeners ∧
    DocHandler.up ∈ (onMouseDown initState 300).docListeners ∧
    DocHandler.move ∉ (step (detach (onMouseDown initState 300)) PointerEvent.mouseUp).docListeners :=
  ⟨(detach_keeps_doc_listeners (onMouseDown initState 300)).1, by decide,
    ((detach_keeps_doc_listeners (onMouseDown initState 300)).2 (by decide)).1⟩

/-- Claim C9: a mousedown during an active session leaves the document
listener list exactly as it was (the DOM discards a duplicate registration)
and only re-captures startX and startWidth from the current pointer
position and the current rendered left-panel width. -/
theorem mousedown_active_no_duplicates (s : ResizerState) (x : Int)
    (hdown : s.downListener = true)
    (hm : DocHandler.move ∈ s.docListeners) (hup : DocHandler.up ∈ s.docListeners) :
    (step s (PointerEvent.mouseDown x)).docListeners = s.docListeners ∧
    (step s (PointerEvent.mouseDown x)).startX = x ∧
    (step s (PointerEvent.mouseDown x)).startWidth = s.leftWidth := by
  have h1 : step s (PointerEvent.mouseDown x) = onMouseDown s x := by
    simp [step, hdown]
  rw [h1]
  refine ⟨?_, rfl, rfl⟩
  show addListener (addListener s.docListeners .move) .up = s.docListeners
  rw [addListener_of_mem _ _ hm]
  exact addListener_of_mem _ _ hup

/-- Witness for C9: a second mousedown at 320 during the session started at
300 leaves the listener list unchanged and re-captures the session values. -/
theorem mousedown_active_no_duplicates_witness :
    (onMouseDown initState 300).downListener = true ∧
    DocHandler.move ∈ (onMouseDown initState 300).docListeners ∧
    DocHandler.up ∈ (onMouseDown initState 300).docListeners ∧
    (step (onMouseDown initState 300) (PointerEvent.mouseDown 320)).docListeners
      = (onMouseDown initState 300).docListeners :=
  ⟨by decide, by decide, by decide,
    (mousedown_active_no_duplicates (onMouseDown initState 300) 320
      (by decide) (by decide) (by decide)).1⟩

/-- Claim C10: when the style-editing widget emits a falsy style document,
`onCodeEditorChange` returns without updating the style state. -/
theorem falsy_style_ignored (styleState : GsStyle) :
    onCodeEditorChange styleState none = styleState := rfl
